import Mathlib

/-!
Shallow embedding of `src/graphics/gl_wrapper.rs` from the nyanko_engine
repository: a thin wrapper over the OpenGL object model (vertex array
objects, buffer objects, vertex attributes, shader programs with a
uniform-location cache).

The OpenGL context is modelled as an explicit state `GLCtx` holding the
global binding slots, a fresh-identifier counter, the buffer contents,
an oracle for `glGetUniformLocation`, and a log of every GL command
issued.  Each wrapper method of the Rust source becomes a Lean function
threading a `GLCtx`.  A Rust `panic!` / `.unwrap()` / `.expect(..)` is
modelled as `Except.error` (the process terminates; side effects already
performed stay in the returned state).  32-bit machine values (`GLfloat`
bit patterns, `GLint`) are carried as `Int`; GL enumeration values as
`Nat`.
-/

/-- A single OpenGL command as issued through the `gl` crate bindings,
recording the arguments that the Rust wrapper passes. -/
inductive GLCmd where
  | genVertexArrays (id : Nat)
  | bindVertexArray (id : Nat)
  | genBuffers (id : Nat)
  | bindBuffer (target : Nat) (id : Nat)
  | bufferData (target : Nat) (sizeBytes : Nat) (data : List Int) (usage : Nat)
  | vertexAttribPointer (index : Nat) (size : Int) (ty : Nat)
      (normalized : Bool) (stride : Int) (pointer : Nat)
  | enableVertexAttribArray (index : Nat)
  | disableVertexAttribArray (index : Nat)
  | createShader (ty : Nat) (id : Nat)
  | shaderSource (shader : Nat) (src : String)
  | compileShader (shader : Nat)
  | createProgram (id : Nat)
  | attachShader (prog : Nat) (shader : Nat)
  | linkProgram (prog : Nat)
  | deleteShader (shader : Nat)
  | useProgram (id : Nat)
  | getUniformLocation (prog : Nat) (name : String)
  | uniformMatrix4fv (location : Int) (count : Nat) (transpose : Bool)
      (matrix : List Int)
  deriving Repr, DecidableEq

/-- The OpenGL context state: global binding slots (one per resource
category, buffers per target), a fresh-id counter for `glGen*` and
`glCreate*`, the contents of each buffer object, the driver's resolution
of uniform names to locations for each linked program (negative means
"not found"), and the log of commands issued so far. -/
structure GLCtx where
  nextId : Nat
  boundVao : Nat
  boundBuffer : Nat → Nat
  boundProgram : Nat
  bufContents : Nat → List Int
  uniformLoc : Nat → String → Int
  log : List GLCmd

/-- Append one command to the context's log. -/
def GLCtx.push (s : GLCtx) (c : GLCmd) : GLCtx :=
  { s with log := s.log ++ [c] }

/-- Rust `mem::size_of::<GLfloat>()` — a `GLfloat` is a 32-bit float. -/
def sizeOfGLfloat : Nat := 4

/-- Rust `mem::size_of::<GLint>()` — a `GLint` is a 32-bit integer. -/
def sizeOfGLint : Nat := 4

/-- Rust `gl::VERTEX_SHADER`. -/
def GL_VERTEX_SHADER : Nat := 0x8B31

/-- Rust `gl::FRAGMENT_SHADER`. -/
def GL_FRAGMENT_SHADER : Nat := 0x8B30

/-- Whether a Rust string contains an interior NUL byte, which makes
`CString::new(..)` return an error (so `.unwrap()` panics). -/
def containsNul (s : String) : Bool :=
  s.toList.any (fun c => c = Char.ofNat 0)

/-- Rust `pub struct Vao { id: GLuint }` -/
structure Vao where
  id : Nat
  deriving Repr, DecidableEq

/-- Rust `Vao::new`: `gl::GenVertexArrays(1, &mut id)` then wrap the id. -/
def Vao.new (s : GLCtx) : Vao × GLCtx :=
  (⟨s.nextId⟩, { s.push (.genVertexArrays s.nextId) with nextId := s.nextId + 1 })

/-- Rust `Vao::bind`: `gl::BindVertexArray(self.id)`. -/
def Vao.bind (self : Vao) (s : GLCtx) : GLCtx :=
  { s.push (.bindVertexArray self.id) with boundVao := self.id }

/-- Rust `Vao::unbind` (no receiver): `gl::BindVertexArray(0)`. -/
def Vao.unbind (s : GLCtx) : GLCtx :=
  { s.push (.bindVertexArray 0) with boundVao := 0 }

/-- Rust `pub struct BufferObject { id: GLuint, target: GLenum, usage: GLenum }` -/
structure BufferObject where
  id : Nat
  target : Nat
  usage : Nat
  deriving Repr, DecidableEq

/-- Rust `BufferObject::new(target, usage)`: `gl::GenBuffers(1, &mut id)` then
store `id`, `target`, `usage`. -/
def BufferObject.new (target usage : Nat) (s : GLCtx) : BufferObject × GLCtx :=
  (⟨s.nextId, target, usage⟩,
   { s.push (.genBuffers s.nextId) with nextId := s.nextId + 1 })

/-- Rust `BufferObject::bind`: `gl::BindBuffer(self.target, self.id)`. -/
def BufferObject.bind (self : BufferObject) (s : GLCtx) : GLCtx :=
  { s.push (.bindBuffer self.target self.id) with
    boundBuffer := fun t => if t = self.target then self.id else s.boundBuffer t }

/-- Rust `BufferObject::unbind`: `gl::BindBuffer(self.target, 0)`. -/
def BufferObject.unbind (self : BufferObject) (s : GLCtx) : GLCtx :=
  { s.push (.bindBuffer self.target 0) with
    boundBuffer := fun t => if t = self.target then 0 else s.boundBuffer t }

/-- Rust `BufferObject::store_f32_data(&self, data: &[f32])`:
`gl::BufferData(self.target, (data.len() * size_of::<GLfloat>()), ptr,
self.usage)`.  GL semantics: replaces the entire contents of the buffer
currently bound to `self.target`. -/
def BufferObject.store_f32_data (self : BufferObject) (data : List Int)
    (s : GLCtx) : GLCtx :=
  { s.push (.bufferData self.target (data.length * sizeOfGLfloat) data self.usage) with
    bufContents := fun b => if b = s.boundBuffer self.target then data else s.bufContents b }

/-- Rust `BufferObject::store_i32_data(&self, data: &[i32])`:
`gl::BufferData(self.target, (data.len() * size_of::<GLint>()), ptr,
self.usage)`. -/
def BufferObject.store_i32_data (self : BufferObject) (data : List Int)
    (s : GLCtx) : GLCtx :=
  { s.push (.bufferData self.target (data.length * sizeOfGLint) data self.usage) with
    bufContents := fun b => if b = s.boundBuffer self.target then data else s.bufContents b }

/-- Rust `pub struct VertexAttribute { index: GLuint }` -/
structure VertexAttribute where
  index : Nat
  deriving Repr, DecidableEq

/-- Rust `VertexAttribute::new(index, size, type, normalized, stride, pointer)`:
`gl::VertexAttribPointer(..)` then wrap only `index`. -/
def VertexAttribute.new (index : Nat) (size : Int) (ty : Nat)
    (normalized : Bool) (stride : Int) (pointer : Nat) (s : GLCtx) :
    VertexAttribute × GLCtx :=
  (⟨index⟩, s.push (.vertexAttribPointer index size ty normalized stride pointer))

/-- Rust `VertexAttribute::enable`: `gl::EnableVertexAttribArray(self.index)`. -/
def VertexAttribute.enable (self : VertexAttribute) (s : GLCtx) : GLCtx :=
  s.push (.enableVertexAttribArray self.index)

/-- Rust `VertexAttribute::disable`: `gl::DisableVertexAttribArray(self.index)`. -/
def VertexAttribute.disable (self : VertexAttribute) (s : GLCtx) : GLCtx :=
  s.push (.disableVertexAttribArray self.index)

/-- Outcome of accessing a file at a path: `File::open` can fail,
`read_to_string` can fail, or the full text is obtained. -/
inductive FileResult where
  | cannotOpen
  | cannotRead
  | content (text : String)
  deriving Repr, DecidableEq

/-- The filesystem as seen by `ShaderProgram::load_shader_source`:
what accessing each path yields. -/
def FileSystem : Type := String → FileResult

/-- Lookup in the uniform cache (`HashMap<String, GLint>::get`). -/
def lookupUniform (name : String) : List (String × Int) → Option Int
  | [] => none
  | (k, v) :: rest => if k = name then some v else lookupUniform name rest

/-- Insertion into the uniform cache (`HashMap::insert`): the new binding
replaces any prior entry for the same key. -/
def insertUniform (name : String) (loc : Int) (m : List (String × Int)) :
    List (String × Int) :=
  (name, loc) :: m.filter (fun e => e.1 ≠ name)

/-- Rust `pub struct ShaderProgram { id: GLuint, uniforms: HashMap<String, GLint> }`
(the hash map modelled as an association list with unique keys). -/
structure ShaderProgram where
  id : Nat
  uniforms : List (String × Int)
  deriving Repr, DecidableEq

/-- Rust `ShaderProgram::load_shader_source(path)`: open the file (panicking
with "Failed to open {path}" on failure), read it to a string (panicking
with "Failed to read shader" on failure). No GL calls are made. -/
def ShaderProgram.load_shader_source (fs : FileSystem) (path : String) :
    Except String String :=
  match fs path with
  | .cannotOpen => .error ("Failed to open " ++ path)
  | .cannotRead => .error "Failed to read shader"
  | .content text => .ok text

/-- Rust `ShaderProgram::compile_shader(source, shader_type)`:
`gl::CreateShader`, then `CString::new(source.as_bytes()).unwrap()`
(panics on an interior NUL), then `gl::ShaderSource` and
`gl::CompileShader`. -/
def ShaderProgram.compile_shader (source : String) (shader_type : Nat)
    (s : GLCtx) : Except String Nat × GLCtx :=
  let shader := s.nextId
  let s1 := { s.push (.createShader shader_type shader) with nextId := s.nextId + 1 }
  if containsNul source then
    (.error "NulError", s1)
  else
    (.ok shader, (s1.push (.shaderSource shader source)).push (.compileShader shader))

/-- Rust `ShaderProgram::new(vertex_shader_path, fragment_shader_path)`:
load both sources (fatal on file errors, before any GL call), compile
both stages, create a program, attach both stages, link, delete the two
stage objects, and return the handle with an empty uniform cache. -/
def ShaderProgram.new (fs : FileSystem)
    (vertex_shader_path fragment_shader_path : String) (s : GLCtx) :
    Except String ShaderProgram × GLCtx :=
  match ShaderProgram.load_shader_source fs vertex_shader_path with
  | .error e => (.error e, s)
  | .ok vertex_shader_source =>
    match ShaderProgram.load_shader_source fs fragment_shader_path with
    | .error e => (.error e, s)
    | .ok fragment_shader_source =>
      match ShaderProgram.compile_shader vertex_shader_source GL_VERTEX_SHADER s with
      | (.error e, s1) => (.error e, s1)
      | (.ok vertex_shader, s1) =>
        match ShaderProgram.compile_shader fragment_shader_source GL_FRAGMENT_SHADER s1 with
        | (.error e, s2) => (.error e, s2)
        | (.ok fragment_shader, s2) =>
          let id := s2.nextId
          let s3 := { s2.push (.createProgram id) with nextId := s2.nextId + 1 }
          let s4 := (s3.push (.attachShader id vertex_shader)).push
            (.attachShader id fragment_shader)
          let s5 := ((s4.push (.linkProgram id)).push
            (.deleteShader vertex_shader)).push (.deleteShader fragment_shader)
          (.ok { id := id, uniforms := [] }, s5)

/-- Rust `ShaderProgram::bind`: `gl::UseProgram(self.id)`. -/
def ShaderProgram.bind (self : ShaderProgram) (s : GLCtx) : GLCtx :=
  { s.push (.useProgram self.id) with boundProgram := self.id }

/-- Rust `ShaderProgram::unbind` (no receiver): `gl::UseProgram(0)`. -/
def ShaderProgram.unbind (s : GLCtx) : GLCtx :=
  { s.push (.useProgram 0) with boundProgram := 0 }

/-- Rust `ShaderProgram::create_uniform(&mut self, name)`:
`CString::new(name).unwrap()` (panics on interior NUL, before the GL
call), then `gl::GetUniformLocation(self.id, ..)`; panics if the
location is negative, otherwise inserts `(name, location)` into the
cache.  Returns the outcome, the (possibly updated) receiver, and the
GL state. -/
def ShaderProgram.create_uniform (self : ShaderProgram) (name : String)
    (s : GLCtx) : Except String Unit × ShaderProgram × GLCtx :=
  if containsNul name then
    (.error "NulError", self, s)
  else
    let location := s.uniformLoc self.id name
    let s1 := s.push (.getUniformLocation self.id name)
    if location < 0 then
      (.error ("Uniform " ++ name ++ " not found in shader program"), self, s1)
    else
      (.ok (), { self with uniforms := insertUniform name location self.uniforms }, s1)

/-- Rust `ShaderProgram::set_matrix4fv_uniform(&self, name, matrix)`:
`self.uniforms.get(name).expect("Uniform not found")` (panics if absent,
before the GL call), then `gl::UniformMatrix4fv(location, 1, gl::FALSE,
matrix.as_ptr())` — one matrix, not transposed, the 16 column-major
`f32` entries of the `Matrix4<f32>`. -/
def ShaderProgram.set_matrix4fv_uniform (self : ShaderProgram) (name : String)
    (matrix : List Int) (s : GLCtx) : Except String Unit × GLCtx :=
  match lookupUniform name self.uniforms with
  | none => (.error "Uniform not found", s)
  | some location => (.ok (), s.push (.uniformMatrix4fv location 1 false matrix))

/-- Whether a result models a Rust panic (process-terminating failure). -/
def isFatal {α : Type} : Except String α → Bool
  | .error _ => true
  | .ok _ => false

/-- Every location stored in the uniform cache is non-negative. -/
def cacheNonneg (p : ShaderProgram) : Bool :=
  p.uniforms.all (fun e => 0 ≤ e.2)

/-- A fresh GL context: nothing bound, no buffers filled, every uniform
name unresolved (location -1), empty log. -/
def ctx0 : GLCtx :=
  { nextId := 1, boundVao := 0, boundBuffer := fun _ => 0, boundProgram := 0,
    bufContents := fun _ => [], uniformLoc := fun _ _ => -1, log := [] }

/-- A GL context whose driver resolves every uniform name to location 3. -/
def ctxPos : GLCtx :=
  { ctx0 with uniformLoc := fun _ _ => 3 }

/-- A filesystem on which every path holds the shader text "vsrc". -/
def fsGood : FileSystem := fun _ => .content "vsrc"

/-- A filesystem on which every path holds text with an interior NUL. -/
def fsNul : FileSystem := fun _ => .content "a\x00b"

/-- A filesystem on which no path can be opened. -/
def fsMissing : FileSystem := fun _ => .cannotOpen

theorem lookupUniform_insert_self (name : String) (loc : Int)
    (m : List (String × Int)) :
    lookupUniform name (insertUniform name loc m) = some loc := by
  simp [insertUniform, lookupUniform]

theorem lookupUniform_filter_ne (other name : String) (h : other ≠ name)
    (m : List (String × Int)) :
    lookupUniform other (m.filter (fun e => e.1 ≠ name)) =
      lookupUniform other m := by
  have hno : ¬ name = other := fun hh => h hh.symm
  induction m with
  | nil => rfl
  | cons e rest ih =>
    obtain ⟨k, v⟩ := e
    by_cases hk : k = name
    · subst hk
      simp only [ne_eq, decide_not] at ih ⊢
      simp [List.filter_cons, lookupUniform, hno, ih]
    · by_cases hko : k = other
      · subst hko
        simp only [ne_eq, decide_not] at ih ⊢
        simp [List.filter_cons, lookupUniform, hk]
      · simp only [ne_eq, decide_not] at ih ⊢
        simp [List.filter_cons, lookupUniform, hk, hko, ih]

theorem lookupUniform_insert_ne (other name : String) (h : other ≠ name)
    (loc : Int) (m : List (String × Int)) :
    lookupUniform other (insertUniform name loc m) = lookupUniform other m := by
  have hno : ¬ name = other := fun hh => h hh.symm
  simp only [insertUniform, lookupUniform, if_neg hno]
  exact lookupUniform_filter_ne other name h m

theorem countP_insertUniform (name : String) (loc : Int)
    (m : List (String × Int)) :
    (insertUniform name loc m).countP (fun e => e.1 = name) = 1 := by
  simp [insertUniform, List.countP_cons, List.countP_eq_zero, List.mem_filter]

/-- C1: for every shader program and uniform name (a valid C string), if
the linked program resolves the name to a negative ("not found")
location, `create_uniform` fails fatally and the uniform-location cache
is unchanged; otherwise it succeeds and inserts `(name, location)` into
the cache, overwriting any prior entry for that name and leaving every
other name's entry unchanged. -/
theorem create_uniform_cache_update (p : ShaderProgram) (name other : String)
    (s : GLCtx) (hn : containsNul name = false) (ho : other ≠ name) :
    (s.uniformLoc p.id name < 0 →
      (p.create_uniform name s).1 =
        .error ("Uniform " ++ name ++ " not found in shader program") ∧
      (p.create_uniform name s).2.1 = p) ∧
    (0 ≤ s.uniformLoc p.id name →
      (p.create_uniform name s).1 = .ok () ∧
      lookupUniform name (p.create_uniform name s).2.1.uniforms =
        some (s.uniformLoc p.id name) ∧
      lookupUniform other (p.create_uniform name s).2.1.uniforms =
        lookupUniform other p.uniforms) := by
  constructor
  · intro hneg
    simp [ShaderProgram.create_uniform, hn, hneg]
  · intro hpos
    have hneg : ¬ s.uniformLoc p.id name < 0 := not_lt.mpr hpos
    simp [ShaderProgram.create_uniform, hn, hneg, lookupUniform_insert_self,
      lookupUniform_insert_ne other name ho]

/-- Witness for C1: on a context resolving "transform" to -1 the call
fails with the cache untouched; on a context resolving it to 3 the call
succeeds, caches location 3, and leaves the entry for "x" unchanged. -/
theorem create_uniform_cache_update_witness :
    containsNul "transform" = false ∧ ("x" : String) ≠ "transform" ∧
    ctx0.uniformLoc 7 "transform" < 0 ∧
    (0 : Int) ≤ ctxPos.uniformLoc 7 "transform" ∧
    ((⟨7, [("x", 5)]⟩ : ShaderProgram).create_uniform "transform" ctx0).1 =
      .error ("Uniform " ++ "transform" ++ " not found in shader program") ∧
    ((⟨7, [("x", 5)]⟩ : ShaderProgram).create_uniform "transform" ctx0).2.1 =
      ⟨7, [("x", 5)]⟩ ∧
    ((⟨7, [("x", 5)]⟩ : ShaderProgram).create_uniform "transform" ctxPos).1 =
      .ok () ∧
    lookupUniform "transform"
      ((⟨7, [("x", 5)]⟩ : ShaderProgram).create_uniform "transform"
        ctxPos).2.1.uniforms = some (ctxPos.uniformLoc 7 "transform") ∧
    lookupUniform "x"
      ((⟨7, [("x", 5)]⟩ : ShaderProgram).create_uniform "transform"
        ctxPos).2.1.uniforms = lookupUniform "x" [("x", 5)] := by
  have h1 := create_uniform_cache_update ⟨7, [("x", 5)]⟩ "transform" "x" ctx0
    (by decide) (by decide)
  have h2 := create_uniform_cache_update ⟨7, [("x", 5)]⟩ "transform" "x" ctxPos
    (by decide) (by decide)
  have hneg : ctx0.uniformLoc 7 "transform" < 0 := by decide
  have hpos : (0 : Int) ≤ ctxPos.uniformLoc 7 "transform" := by decide
  exact ⟨by decide, by decide, hneg, hpos, (h1.1 hneg).1, (h1.1 hneg).2,
    (h2.2 hpos).1, (h2.2 hpos).2.1, (h2.2 hpos).2.2⟩

/-- C2: for every shader program, `set_matrix4fv_uniform` on a name
absent from the uniform cache fails fatally with the GL state untouched
(nothing uploaded); on a cached name it issues exactly one
`UniformMatrix4fv` upload of one matrix instance, not transposed, to the
cached location. -/
theorem set_matrix4fv_uniform_spec (p : ShaderProgram) (name : String)
    (matrix : List Int) (loc : Int) (s : GLCtx) :
    (lookupUniform name p.uniforms = none →
      (p.set_matrix4fv_uniform name matrix s).1 = .error "Uniform not found" ∧
      (p.set_matrix4fv_uniform name matrix s).2 = s) ∧
    (lookupUniform name p.uniforms = some loc →
      (p.set_matrix4fv_uniform name matrix s).1 = .ok () ∧
      (p.set_matrix4fv_uniform name matrix s).2.log =
        s.log ++ [.uniformMatrix4fv loc 1 false matrix]) := by
  constructor
  · intro h
    simp [ShaderProgram.set_matrix4fv_uniform, h]
  · intro h
    simp [ShaderProgram.set_matrix4fv_uniform, h, GLCtx.push]

/-- Witness for C2: a program whose cache lacks "m" fails fatally with
the state untouched; one whose cache maps "m" to 2 uploads one
untransposed matrix to location 2. -/
theorem set_matrix4fv_uniform_spec_witness :
    lookupUniform "m" ([] : List (String × Int)) = none ∧
    lookupUniform "m" [("m", 2)] = some 2 ∧
    ((⟨7, []⟩ : ShaderProgram).set_matrix4fv_uniform "m" [1, 2, 3] ctx0).1 =
      .error "Uniform not found" ∧
    ((⟨7, []⟩ : ShaderProgram).set_matrix4fv_uniform "m" [1, 2, 3] ctx0).2 =
      ctx0 ∧
    ((⟨7, [("m", 2)]⟩ : ShaderProgram).set_matrix4fv_uniform "m"
      [1, 2, 3] ctx0).1 = .ok () ∧
    ((⟨7, [("m", 2)]⟩ : ShaderProgram).set_matrix4fv_uniform "m"
      [1, 2, 3] ctx0).2.log =
      ctx0.log ++ [.uniformMatrix4fv 2 1 false [1, 2, 3]] := by
  have h1 := set_matrix4fv_uniform_spec ⟨7, []⟩ "m" [1, 2, 3] 2 ctx0
  have h2 := set_matrix4fv_uniform_spec ⟨7, [("m", 2)]⟩ "m" [1, 2, 3] 2 ctx0
  have ha : lookupUniform "m" ([] : List (String × Int)) = none := by decide
  have hb : lookupUniform "m" [("m", 2)] = some 2 := by decide
  exact ⟨ha, hb, (h1.1 ha).1, (h1.1 ha).2, (h2.2 hb).1, (h2.2 hb).2⟩

/-- C3: for every pair of readable shader source paths (with valid C
string contents), `ShaderProgram::new` reads the text at each path and
issues exactly, in order: create+source+compile of the vertex stage,
create+source+compile of the fragment stage, program creation, both
attaches, the link, and the deletion of both compiled stages — and it
returns a handle with an empty uniform-location cache. -/
theorem shader_program_new_steps (fs : FileSystem)
    (vpath fpath vsrc fsrc : String) (s : GLCtx)
    (hv : fs vpath = .content vsrc) (hf : fs fpath = .content fsrc)
    (hnv : containsNul vsrc = false) (hnf : containsNul fsrc = false) :
    (ShaderProgram.new fs vpath fpath s).1 = .ok ⟨s.nextId + 2, []⟩ ∧
    (ShaderProgram.new fs vpath fpath s).2.log = s.log ++
      [.createShader GL_VERTEX_SHADER s.nextId, .shaderSource s.nextId vsrc,
       .compileShader s.nextId,
       .createShader GL_FRAGMENT_SHADER (s.nextId + 1),
       .shaderSource (s.nextId + 1) fsrc, .compileShader (s.nextId + 1),
       .createProgram (s.nextId + 2),
       .attachShader (s.nextId + 2) s.nextId,
       .attachShader (s.nextId + 2) (s.nextId + 1),
       .linkProgram (s.nextId + 2),
       .deleteShader s.nextId, .deleteShader (s.nextId + 1)] := by
  simp [ShaderProgram.new, ShaderProgram.load_shader_source, hv, hf,
    ShaderProgram.compile_shader, hnv, hnf, GLCtx.push]

/-- Witness for C3 on a filesystem where every path holds the NUL-free
text "vsrc" and a fresh context with next id 1. -/
theorem shader_program_new_steps_witness :
    fsGood "v.glsl" = .content "vsrc" ∧ fsGood "f.glsl" = .content "vsrc" ∧
    containsNul "vsrc" = false ∧
    (ShaderProgram.new fsGood "v.glsl" "f.glsl" ctx0).1 =
      .ok ⟨ctx0.nextId + 2, []⟩ ∧
    (ShaderProgram.new fsGood "v.glsl" "f.glsl" ctx0).2.log = ctx0.log ++
      [.createShader GL_VERTEX_SHADER ctx0.nextId,
       .shaderSource ctx0.nextId "vsrc", .compileShader ctx0.nextId,
       .createShader GL_FRAGMENT_SHADER (ctx0.nextId + 1),
       .shaderSource (ctx0.nextId + 1) "vsrc",
       .compileShader (ctx0.nextId + 1),
       .createProgram (ctx0.nextId + 2),
       .attachShader (ctx0.nextId + 2) ctx0.nextId,
       .attachShader (ctx0.nextId + 2) (ctx0.nextId + 1),
       .linkProgram (ctx0.nextId + 2),
       .deleteShader ctx0.nextId, .deleteShader (ctx0.nextId + 1)] := by
  have h := shader_program_new_steps fsGood "v.glsl" "f.glsl" "vsrc" "vsrc"
    ctx0 (by decide) (by decide) (by decide) (by decide)
  exact ⟨by decide, by decide, by decide, h.1, h.2⟩

/-- C4: for every pair of paths where the vertex-shader path or the
fragment-shader path cannot be opened or read, `ShaderProgram::new`
fails fatally with the GL context untouched — in particular before any
shader compilation is attempted. -/
theorem shader_program_new_file_fatal (fs : FileSystem)
    (vpath fpath : String) (s : GLCtx)
    (h : fs vpath = .cannotOpen ∨ fs vpath = .cannotRead ∨
         fs fpath = .cannotOpen ∨ fs fpath = .cannotRead) :
    isFatal (ShaderProgram.new fs vpath fpath s).1 = true ∧
    (ShaderProgram.new fs vpath fpath s).2 = s := by
  rcases h with h | h | h | h
  · simp [ShaderProgram.new, ShaderProgram.load_shader_source, h, isFatal]
  · simp [ShaderProgram.new, ShaderProgram.load_shader_source, h, isFatal]
  · cases hv : fs vpath <;>
      simp [ShaderProgram.new, ShaderProgram.load_shader_source, hv, h, isFatal]
  · cases hv : fs vpath <;>
      simp [ShaderProgram.new, ShaderProgram.load_shader_source, hv, h, isFatal]

/-- Witness for C4 on a filesystem where no path can be opened: creation
fails fatally and the fresh context is returned unchanged (no GL call,
hence no compilation, was issued). -/
theorem shader_program_new_file_fatal_witness :
    fsMissing "v.glsl" = .cannotOpen ∧
    isFatal (ShaderProgram.new fsMissing "v.glsl" "f.glsl" ctx0).1 = true ∧
    (ShaderProgram.new fsMissing "v.glsl" "f.glsl" ctx0).2 = ctx0 := by
  have h := shader_program_new_file_fatal fsMissing "v.glsl" "f.glsl" ctx0
    (Or.inl (by decide))
  exact ⟨by decide, h.1, h.2⟩

/-- C5: registering the same resolvable uniform name twice is idempotent
in effect: after two `create_uniform` calls with the same name the cache
holds exactly one entry for that name, and its location is the same as
after the first registration. -/
theorem create_uniform_idempotent (p : ShaderProgram) (name : String)
    (s : GLCtx) (hn : containsNul name = false)
    (hpos : 0 ≤ s.uniformLoc p.id name) :
    ((((p.create_uniform name s).2.1).create_uniform name
        (p.create_uniform name s).2.2).2.1.uniforms.countP
      (fun e => e.1 = name) = 1) ∧
    lookupUniform name (((p.create_uniform name s).2.1).create_uniform name
        (p.create_uniform name s).2.2).2.1.uniforms =
      some (s.uniformLoc p.id name) ∧
    lookupUniform name (p.create_uniform name s).2.1.uniforms =
      some (s.uniformLoc p.id name) := by
  have hneg : ¬ s.uniformLoc p.id name < 0 := not_lt.mpr hpos
  simp [ShaderProgram.create_uniform, hn, hneg, GLCtx.push,
    countP_insertUniform, lookupUniform_insert_self]

/-- Witness for C5: registering "transform" twice on a program with an
empty cache, against a driver resolving every name to 3, leaves exactly
one cache entry for "transform" at location 3. -/
theorem create_uniform_idempotent_witness :
    containsNul "transform" = false ∧
    (0 : Int) ≤ ctxPos.uniformLoc 7 "transform" ∧
    (((((⟨7, []⟩ : ShaderProgram).create_uniform "transform"
          ctxPos).2.1).create_uniform "transform"
        ((⟨7, []⟩ : ShaderProgram).create_uniform "transform"
          ctxPos).2.2).2.1.uniforms.countP (fun e => e.1 = "transform") = 1) ∧
    lookupUniform "transform"
      ((((⟨7, []⟩ : ShaderProgram).create_uniform "transform"
          ctxPos).2.1).create_uniform "transform"
        ((⟨7, []⟩ : ShaderProgram).create_uniform "transform"
          ctxPos).2.2).2.1.uniforms = some (ctxPos.uniformLoc 7 "transform") ∧
    lookupUniform "transform"
      ((⟨7, []⟩ : ShaderProgram).create_uniform "transform"
        ctxPos).2.1.uniforms = some (ctxPos.uniformLoc 7 "transform") := by
  have h := create_uniform_idempotent ⟨7, []⟩ "transform" ctxPos
    (by decide) (by decide)
  exact ⟨by decide, by decide, h.1, h.2.1, h.2.2⟩

/-- C6: `store_f32_data` issues exactly one `BufferData` upload whose
byte size is `count(data) * size_of(GLfloat)`, whose target and usage
are the handle's own stored fields (the method takes no caller-supplied
ones), and which replaces the entire contents of the buffer bound to the
handle's target; `store_i32_data` satisfies the identical contract with
the `GLint` element size; and `BufferObject::new` stores the constructor
arguments as the handle's immutable target and usage. -/
theorem buffer_object_store_spec (target usage : Nat) (b : BufferObject)
    (data idata : List Int) (s : GLCtx) :
    (BufferObject.new target usage s).1.target = target ∧
    (BufferObject.new target usage s).1.usage = usage ∧
    (b.store_f32_data data s).log =
      s.log ++ [.bufferData b.target (data.length * sizeOfGLfloat) data b.usage] ∧
    (b.store_f32_data data s).bufContents (s.boundBuffer b.target) = data ∧
    (b.store_i32_data idata s).log =
      s.log ++ [.bufferData b.target (idata.length * sizeOfGLint) idata b.usage] ∧
    (b.store_i32_data idata s).bufContents (s.boundBuffer b.target) = idata := by
  refine ⟨rfl, rfl, rfl, ?_, rfl, ?_⟩ <;>
    simp [BufferObject.store_f32_data, BufferObject.store_i32_data, GLCtx.push]

/-- C7: each resource category has one global bound slot: `Vao::bind`
sets the vertex-array slot to the instance's id and `Vao::unbind` (no
receiver) sets it to 0; `BufferObject::bind`/`unbind` set the slot of
the buffer's own fixed target to its id resp. 0 and leave every other
target's slot unchanged; `ShaderProgram::bind` sets the program slot to
the instance's id and `ShaderProgram::unbind` (no receiver) sets it to
0; and each of these touches only its own category's slot. -/
theorem bind_unbind_slot_transitions (v : Vao) (b : BufferObject)
    (p : ShaderProgram) (s : GLCtx) (t : Nat) (ht : t ≠ b.target) :
    (v.bind s).boundVao = v.id ∧
    (Vao.unbind s).boundVao = 0 ∧
    (b.bind s).boundBuffer b.target = b.id ∧
    (b.unbind s).boundBuffer b.target = 0 ∧
    (b.bind s).boundBuffer t = s.boundBuffer t ∧
    (b.unbind s).boundBuffer t = s.boundBuffer t ∧
    (p.bind s).boundProgram = p.id ∧
    (ShaderProgram.unbind s).boundProgram = 0 ∧
    (v.bind s).boundBuffer = s.boundBuffer ∧
    (v.bind s).boundProgram = s.boundProgram ∧
    (b.bind s).boundVao = s.boundVao ∧
    (b.bind s).boundProgram = s.boundProgram ∧
    (b.unbind s).boundVao = s.boundVao ∧
    (b.unbind s).boundProgram = s.boundProgram ∧
    (p.bind s).boundVao = s.boundVao ∧
    (p.bind s).boundBuffer = s.boundBuffer ∧
    (Vao.unbind s).boundBuffer = s.boundBuffer ∧
    (Vao.unbind s).boundProgram = s.boundProgram ∧
    (ShaderProgram.unbind s).boundVao = s.boundVao ∧
    (ShaderProgram.unbind s).boundBuffer = s.boundBuffer := by
  refine ⟨rfl, rfl, ?_, ?_, ?_, ?_, rfl, rfl, rfl, rfl, rfl, rfl, rfl, rfl,
    rfl, rfl, rfl, rfl, rfl, rfl⟩ <;>
    simp [BufferObject.bind, BufferObject.unbind, GLCtx.push, ht]

/-- Witness for C7 at a concrete vao (id 1), buffer (id 2, target 10),
program (id 3), other target 11, on a fresh context. -/
theorem bind_unbind_slot_transitions_witness :
    (11 : Nat) ≠ (⟨2, 10, 20⟩ : BufferObject).target ∧
    ((⟨1⟩ : Vao).bind ctx0).boundVao = 1 ∧
    ((⟨2, 10, 20⟩ : BufferObject).bind ctx0).boundBuffer 10 = 2 ∧
    ((⟨2, 10, 20⟩ : BufferObject).unbind ctx0).boundBuffer 10 = 0 ∧
    ((⟨2, 10, 20⟩ : BufferObject).bind ctx0).boundBuffer 11 =
      ctx0.boundBuffer 11 ∧
    ((⟨2, 10, 20⟩ : BufferObject).unbind ctx0).boundBuffer 11 =
      ctx0.boundBuffer 11 ∧
    ((⟨3, []⟩ : ShaderProgram).bind ctx0).boundProgram = 3 ∧
    (Vao.unbind ctx0).boundVao = 0 ∧
    (ShaderProgram.unbind ctx0).boundProgram = 0 := by
  have h := bind_unbind_slot_transitions ⟨1⟩ ⟨2, 10, 20⟩ ⟨3, []⟩ ctx0 11
    (by decide)
  exact ⟨by decide, h.1, h.2.2.1, h.2.2.2.1, h.2.2.2.2.1, h.2.2.2.2.2.1,
    h.2.2.2.2.2.2.1, h.2.1, h.2.2.2.2.2.2.2.1⟩

/-- C8: a vertex attribute handle retains only the shader input slot
index fixed at construction — two constructions with the same index but
arbitrarily different size, type, normalization, stride, and pointer
arguments yield identical handles — those arguments are consumed once
into the single `VertexAttribPointer` call issued at construction, and
`enable`/`disable` issue exactly one GL call on the stored index. -/
theorem vertex_attribute_retains_only_index (index : Nat)
    (size size' : Int) (ty ty' : Nat) (nz nz' : Bool) (st st' : Int)
    (ptr ptr' : Nat) (s s' : GLCtx) (va : VertexAttribute) :
    (VertexAttribute.new index size ty nz st ptr s).1 =
      (VertexAttribute.new index size' ty' nz' st' ptr' s').1 ∧
    (VertexAttribute.new index size ty nz st ptr s).1.index = index ∧
    (VertexAttribute.new index size ty nz st ptr s).2.log =
      s.log ++ [.vertexAttribPointer index size ty nz st ptr] ∧
    (va.enable s).log = s.log ++ [.enableVertexAttribArray va.index] ∧
    (va.disable s).log = s.log ++ [.disableVertexAttribArray va.index] := by
  exact ⟨rfl, rfl, rfl, rfl, rfl⟩

/-- C9: unlisted fatal failure modes on interior NUL bytes:
`create_uniform` on a name containing an interior NUL fails fatally
before any resolution against the program (no `GetUniformLocation` is
issued: the GL state and the cache are unchanged), and `ShaderProgram`
creation on readable files fails fatally when either shader source text
contains an interior NUL (the `CString` conversion panics). -/
theorem nul_byte_fatal (p : ShaderProgram) (name : String) (s : GLCtx)
    (fs : FileSystem) (vpath fpath vsrc fsrc : String)
    (hn : containsNul name = true)
    (hv : fs vpath = .content vsrc) (hf : fs fpath = .content fsrc)
    (hsrc : containsNul vsrc = true ∨ containsNul fsrc = true) :
    (p.create_uniform name s).1 = .error "NulError" ∧
    (p.create_uniform name s).2.1 = p ∧
    (p.create_uniform name s).2.2 = s ∧
    isFatal (ShaderProgram.new fs vpath fpath s).1 = true := by
  refine ⟨by simp [ShaderProgram.create_uniform, hn],
    by simp [ShaderProgram.create_uniform, hn],
    by simp [ShaderProgram.create_uniform, hn], ?_⟩
  rcases hsrc with h | h
  · simp [ShaderProgram.new, ShaderProgram.load_shader_source, hv, hf,
      ShaderProgram.compile_shader, h, isFatal]
  · by_cases hvs : containsNul vsrc <;>
      simp [ShaderProgram.new, ShaderProgram.load_shader_source, hv, hf,
        ShaderProgram.compile_shader, h, hvs, isFatal]

/-- Witness for C9 with the name "a\x00b" and a filesystem whose files
all hold that same NUL-containing text. -/
theorem nul_byte_fatal_witness :
    containsNul "a\x00b" = true ∧
    fsNul "v.glsl" = .content "a\x00b" ∧
    ((⟨7, []⟩ : ShaderProgram).create_uniform "a\x00b" ctx0).1 =
      .error "NulError" ∧
    ((⟨7, []⟩ : ShaderProgram).create_uniform "a\x00b" ctx0).2.1 = ⟨7, []⟩ ∧
    ((⟨7, []⟩ : ShaderProgram).create_uniform "a\x00b" ctx0).2.2 = ctx0 ∧
    isFatal (ShaderProgram.new fsNul "v.glsl" "f.glsl" ctx0).1 = true := by
  have h := nul_byte_fatal ⟨7, []⟩ "a\x00b" ctx0 fsNul "v.glsl" "f.glsl"
    "a\x00b" "a\x00b" (by decide) (by decide) (by decide) (Or.inl (by decide))
  exact ⟨by decide, by decide, h.1, h.2.1, h.2.2.1, h.2.2.2⟩

theorem cacheNonneg_insert (p : ShaderProgram) (name : String) (loc : Int)
    (hloc : 0 ≤ loc) (hp : cacheNonneg p = true) :
    cacheNonneg { p with uniforms := insertUniform name loc p.uniforms } = true := by
  simp [cacheNonneg, insertUniform, List.all_eq_true, List.mem_filter] at *
  refine ⟨hloc, ?_⟩
  intro a b hab
  exact Or.inr (hp a b hab)

/-- C10: invariant of the uniform-location cache — every stored location
is non-negative: a successfully created program starts with an empty
(hence non-negative) cache, and `create_uniform` preserves the
invariant, inserting only when the resolved location is non-negative
(`set_matrix4fv_uniform` takes the program immutably and only reads the
cache). -/
theorem uniform_cache_nonneg_invariant (fs : FileSystem)
    (vpath fpath name : String) (q p : ShaderProgram) (s s' : GLCtx)
    (hnew : (ShaderProgram.new fs vpath fpath s).1 = .ok q)
    (hp : cacheNonneg p = true) :
    cacheNonneg q = true ∧
    cacheNonneg (p.create_uniform name s').2.1 = true := by
  constructor
  · have hq : q.uniforms = [] := by
      rcases hfv : fs vpath with _ | _ | vsrc <;>
        rcases hff : fs fpath with _ | _ | fsrc <;>
          simp [ShaderProgram.new, ShaderProgram.load_shader_source,
            hfv, hff] at hnew
      by_cases h1 : containsNul vsrc <;> by_cases h2 : containsNul fsrc <;>
        simp [ShaderProgram.compile_shader, h1, h2] at hnew
      subst hnew
      rfl
    simp [cacheNonneg, hq]
  · by_cases hn : containsNul name
    · simpa [ShaderProgram.create_uniform, hn] using hp
    · by_cases hl : s'.uniformLoc p.id name < 0
      · simpa [ShaderProgram.create_uniform, hn, hl] using hp
      · have h := cacheNonneg_insert p name (s'.uniformLoc p.id name)
          (not_lt.mp hl) hp
        simpa [ShaderProgram.create_uniform, hn, hl] using h

/-- Witness for C10: a program freshly created over a readable
filesystem has a non-negative cache, and registering "transform" on a
cache already holding a non-negative entry keeps it non-negative. -/
theorem uniform_cache_nonneg_invariant_witness :
    (ShaderProgram.new fsGood "v.glsl" "f.glsl" ctx0).1 = .ok ⟨3, []⟩ ∧
    cacheNonneg ⟨7, [("x", 5)]⟩ = true ∧
    cacheNonneg (⟨3, []⟩ : ShaderProgram) = true ∧
    cacheNonneg ((⟨7, [("x", 5)]⟩ : ShaderProgram).create_uniform
      "transform" ctxPos).2.1 = true := by
  have h := uniform_cache_nonneg_invariant fsGood "v.glsl" "f.glsl"
    "transform" ⟨3, []⟩ ⟨7, [("x", 5)]⟩ ctx0 ctxPos (by rfl) (by decide)
  exact ⟨by rfl, by decide, h.1, h.2⟩
